import Mathlib

set_option maxHeartbeats 1000000

namespace Gemmology

/-- The apostrophe character, written via its code point. -/
def apos : Char := Char.ofNat 39

/-- Model of Python str.lower restricted to the basic-latin letters
(the preset names in this repository are ASCII). -/
def pyLower (s : List Char) : List Char := s.map Char.toLower

/-- Model of Python str.replace with single-character arguments
(replace every occurrence of old by new). -/
def pyReplaceChar (old new : Char) (s : List Char) : List Char :=
  s.map (fun c => if c = old then new else c)

/-- Model of Python str.replace (old, "") with a single-character old:
remove every occurrence of old. -/
def pyRemoveChar (old : Char) (s : List Char) : List Char :=
  s.filter (fun c => decide (c ≠ old))

/-- Model of Python str.strip with no argument: drop whitespace from
both ends. -/
def pyStrip (s : List Char) : List Char :=
  ((s.dropWhile Char.isWhitespace).reverse.dropWhile Char.isWhitespace).reverse

/-- Model of Python str.split on a comma: "a,b".split(",") gives parts
between commas, with "".split(",") giving one empty part. -/
def splitComma : List Char → List (List Char)
  | [] => [[]]
  | c :: rest =>
    if c = ',' then [] :: splitComma rest
    else
      match splitComma rest with
      | [] => [[c]]
      | t :: ts => (c :: t) :: ts

/-- Does the second list start with the first one? -/
def listStartsWith : List Char → List Char → Bool
  | [], _ => true
  | _ :: _, [] => false
  | a :: as, b :: bs => a == b && listStartsWith as bs

/-- Model of the Python substring test `needle in hay`. -/
def substrIn (needle : List Char) : List Char → Bool
  | [] => needle.isEmpty
  | c :: rest => listStartsWith needle (c :: rest) || substrIn needle rest

/-- Embedding of normalize_filename from scripts/generate-all-assets.py
(lines 32-34): name.lower().replace(" ", "-").replace(APOS, "")
.replace("(", "").replace(")", ""). -/
def normalize_filename (s : List Char) : List Char :=
  pyRemoveChar ')' (pyRemoveChar '(' (pyRemoveChar apos (pyReplaceChar ' ' '-' (pyLower s))))

/-- Embedding of the inline filename computation of
scripts/generate-crystal-assets.py (line 54):
name.lower().replace(" ", "-").replace(APOS, "").  Note: this one does
not remove parentheses. -/
def crystal_filename (s : List Char) : List Char :=
  pyRemoveChar apos (pyReplaceChar ' ' '-' (pyLower s))

/-- Statement of the spec contract for the filename normalizer, written
from the spec's words: lowercase the name, replace every space by a
hyphen, and remove the characters apostrophe, open paren, close paren. -/
def normalizeSpec (s : List Char) : List Char :=
  ((s.map Char.toLower).map (fun c => if c = ' ' then '-' else c)).filter
    (fun c => decide (c ≠ apos) && decide (c ≠ '(') && decide (c ≠ ')'))

/-- The four output formats accepted by scripts/generate-all-assets.py
(valid_formats at line 169). -/
inductive Fmt where
  | svg
  | stl
  | gltf
  | obj
deriving DecidableEq

/-- The format's name as the string used on the command line and as the
key of OUTPUT_DIRS. -/
def fmtName : Fmt → List Char
  | .svg => "svg".toList
  | .stl => "stl".toList
  | .gltf => "gltf".toList
  | .obj => "obj".toList

/-- The extension of the file written for each format, read off the four
branches of the export loop (lines 93, 112, 118, 124): the gltf branch
writes filename.glb, every other branch writes filename.fmt. -/
def fmtExt : Fmt → List Char
  | .svg => ".svg".toList
  | .stl => ".stl".toList
  | .gltf => ".glb".toList
  | .obj => ".obj".toList

/-- Validation of one requested format token against valid_formats
(line 169): the token must be one of svg, stl, gltf, obj. -/
def parseFmt (t : List Char) : Option Fmt :=
  if t = fmtName .svg then some .svg
  else if t = fmtName .stl then some .stl
  else if t = fmtName .gltf then some .gltf
  else if t = fmtName .obj then some .obj
  else none

/-- Per-format entry of the stats dictionary (line 62): a success count
and the ordered list of failed preset names. -/
structure FmtStats where
  success : Nat
  failed : List (List Char)
deriving DecidableEq

/-- Run-scoped state of generate_assets: the stats dictionary and the
list of files written so far, each file given as (format, filename)
where the format stands for its OUTPUT_DIRS directory. -/
structure RunState where
  stats : Fmt → FmtStats
  files : List (Fmt × List Char)

/-- Fresh stats at the start of a run (line 62). -/
def initState : RunState :=
  { stats := fun _ => { success := 0, failed := [] }, files := [] }

/-- A preset record as the scripts see it: an optional crystallographic
description string (the cdl field). -/
structure Preset where
  cdl : Option (List Char)
deriving DecidableEq

/-- The external collaborators of generate-all-assets.py, modelled as
oracles: the preset database, the parse_cdl/cdl_to_geometry pipeline
(none models an exception), and the per-format exporters (false models
an exception raised by that exporter). -/
structure Env (G : Type) where
  listPresets : List (List Char)
  getPreset : List Char → Option Preset
  buildGeometry : List Char → Option G
  exportOk : Fmt → G → List Char → Bool

/-- Pointwise update of the stats dictionary at one format key. -/
def setStat (stats : Fmt → FmtStats) (fmt : Fmt) (v : FmtStats) : Fmt → FmtStats :=
  fun f => if f = fmt then v else stats f

/-- One iteration of the inner per-format loop (lines 90-131): on
success the exporter writes the output file and the success count is
incremented; an exception is caught and the preset name is appended to
that format's failed list. -/
def exportOne (env : Env G) (geom : G) (name fname : List Char) (st : RunState) (fmt : Fmt) : RunState :=
  if env.exportOk fmt geom name then
    { stats := setStat st.stats fmt
        { success := (st.stats fmt).success + 1, failed := (st.stats fmt).failed },
      files := st.files ++ [(fmt, fname ++ fmtExt fmt)] }
  else
    { stats := setStat st.stats fmt
        { success := (st.stats fmt).success, failed := (st.stats fmt).failed ++ [name] },
      files := st.files }

/-- The geometry-failure handler (lines 133-136): append the preset
name to the failed list of every requested format. -/
def markFailed (stats : Fmt → FmtStats) (name : List Char) (formats : List Fmt) : Fmt → FmtStats :=
  formats.foldl
    (fun s fmt => setStat s fmt
      { success := (s fmt).success, failed := (s fmt).failed ++ [name] })
    stats

/-- One iteration of the outer per-preset loop (lines 69-136): skip when
the preset is absent or its cdl is absent or empty; otherwise build the
geometry and run the per-format loop, or mark every format failed when
geometry construction raises. -/
def processPreset (env : Env G) (formats : List Fmt) (st : RunState) (name : List Char) : RunState :=
  match env.getPreset name with
  | none => st
  | some preset =>
    match preset.cdl with
    | none => st
    | some cdl =>
      if cdl.isEmpty then st
      else
        let fname := normalize_filename name
        match env.buildGeometry cdl with
        | some geom => formats.foldl (exportOne env geom name fname) st
        | none => { st with stats := markFailed st.stats name formats }

/-- The preset selection of lines 57-59: with a truthy filter keep the
presets whose lowercased name contains the lowercased filter as a
substring, otherwise keep all presets. -/
def selectPresets (presets : List (List Char)) (preset_filter : Option (List Char)) : List (List Char) :=
  match preset_filter with
  | none => presets
  | some f =>
    if f.isEmpty then presets
    else presets.filter (fun p => substrIn (pyLower f) (pyLower p))

/-- Observable outcome of one process run of generate-all-assets.py:
the exit status, the output directories created, how many presets were
iterated, the files written, and the final stats (absent when the run
aborted before building them). -/
structure MainOutcome where
  exitCode : Nat
  dirsCreated : List Fmt
  presetsProcessed : Nat
  files : List (Fmt × List Char)
  stats : Option (Fmt → FmtStats)

/-- Embedding of generate_assets (lines 37-147): import failure exits
with status 1 before any directory is created; otherwise directories
are created, the selected presets are processed and the run ends
normally (the caller then exits with status 0). -/
def generate_assets (env : Env G) (importsOk : Bool) (formats : List Fmt)
    (preset_filter : Option (List Char)) : MainOutcome :=
  if importsOk then
    let presets := selectPresets env.listPresets preset_filter
    let final := presets.foldl (processPreset env formats) initState
    { exitCode := 0, dirsCreated := formats, presetsProcessed := presets.length,
      files := final.files, stats := some final.stats }
  else
    { exitCode := 1, dirsCreated := [], presetsProcessed := 0, files := [], stats := none }

/-- The requested format tokens of line 166: split the --formats
argument on commas, strip and lowercase each token. -/
def formatTokens (argFormats : List Char) : List (List Char) :=
  (splitComma argFormats).map (fun t => pyLower (pyStrip t))

/-- Embedding of the __main__ block of generate-all-assets.py (lines
150-176): split the --formats argument on commas, strip and lowercase
each token, exit with status 1 when a token is not a valid format name,
and otherwise run generate_assets. -/
def script1_main (env : Env G) (importsOk : Bool) (argFormats : List Char)
    (argPreset : Option (List Char)) : MainOutcome :=
  let toks := formatTokens argFormats
  if toks.any (fun t => (parseFmt t).isNone) then
    { exitCode := 1, dirsCreated := [], presetsProcessed := 0, files := [], stats := none }
  else
    generate_assets env importsOk (toks.filterMap parseFmt) argPreset

/-- The external collaborators of generate-crystal-assets.py, modelled
as oracles: the preset database and the parse_cdl/cdl_to_geometry/
generate_svg pipeline of one preset (false models an exception raised
anywhere inside the try block of lines 57-79). -/
structure Env2 where
  listPresets : List (List Char)
  getPreset : List Char → Option Preset
  renderOk : List Char → List Char → Bool

/-- Run-scoped state of generate_assets in generate-crystal-assets.py:
success count, failed preset names, and the SVG filenames written. -/
structure Run2 where
  success : Nat
  failedNames : List (List Char)
  files : List (List Char)
deriving DecidableEq

/-- One iteration of the per-preset loop of generate-crystal-assets.py
(lines 47-86): skip on a missing preset or missing or empty cdl,
otherwise render one SVG, recording the name on failure. -/
def processPreset2 (env : Env2) (st : Run2) (name : List Char) : Run2 :=
  match env.getPreset name with
  | none => st
  | some preset =>
    match preset.cdl with
    | none => st
    | some cdl =>
      if cdl.isEmpty then st
      else
        let filename := crystal_filename name
        if env.renderOk name cdl then
          { st with success := st.success + 1, files := st.files ++ [filename ++ ".svg".toList] }
        else
          { st with failedNames := st.failedNames ++ [name] }

/-- Result of a Python call that can terminate the process: a normal
return, an ImportError escaping the call, or a SystemExit raised by
sys.exit. -/
inductive PyResult (α : Type) where
  | ok (a : α)
  | importError
  | systemExit (code : Nat)
deriving DecidableEq

/-- Embedding of generate_assets of generate-crystal-assets.py (lines
22-96): the ImportError of the imports at lines 25-28 is caught inside
the function and turned into sys.exit(1), so the function never lets an
ImportError escape; otherwise it runs the per-preset loop. -/
def generate_assets2 (env : Env2) (importsOk : Bool) : PyResult Run2 :=
  if importsOk then
    .ok (env.listPresets.foldl (processPreset2 env) { success := 0, failedNames := [], files := [] })
  else
    .systemExit 1

/-- Embedding of generate_placeholder_svg (lines 99-117): the Python
body is an f-string that never interpolates the name argument, so the
function returns this fixed octahedron SVG for every name. -/
def generate_placeholder_svg (name : List Char) : List Char :=
  ("<svg viewBox=\"-150 -150 300 300\" xmlns=\"http://www.w3.org/2000/svg\">\n  <defs>\n    <linearGradient id=\"face1\" x1=\"0%\" y1=\"0%\" x2=\"100%\" y2=\"100%\">\n      <stop offset=\"0%\" style=\"stop-color:#0ea5e9;stop-opacity:0.8\" />\n      <stop offset=\"100%\" style=\"stop-color:#0284c7;stop-opacity:0.9\" />\n    </linearGradient>\n    <linearGradient id=\"face2\" x1=\"0%\" y1=\"0%\" x2=\"100%\" y2=\"100%\">\n      <stop offset=\"0%\" style=\"stop-color:#38bdf8;stop-opacity:0.7\" />\n      <stop offset=\"100%\" style=\"stop-color:#0ea5e9;stop-opacity:0.8\" />\n    </linearGradient>\n  </defs>\n  <polygon points=\"0,-100 -80,0 0,100\" fill=\"url(#face2)\" stroke=\"#0369a1\" stroke-width=\"1.5\" opacity=\"0.6\"/>\n  <polygon points=\"0,-100 0,100 80,0\" fill=\"url(#face1)\" stroke=\"#0369a1\" stroke-width=\"1.5\" opacity=\"0.7\"/>\n  <polygon points=\"0,-100 -80,0 80,0\" fill=\"url(#face1)\" stroke=\"#0369a1\" stroke-width=\"2\"/>\n  <polygon points=\"0,100 -80,0 80,0\" fill=\"url(#face2)\" stroke=\"#0369a1\" stroke-width=\"2\"/>\n</svg>").toList

/-- The static hard-coded mineral name list of generate_placeholder_assets
(lines 123-149). -/
def minerals : List (List Char) :=
  ["alexandrite".toList, "almandine".toList, "amazonite".toList, "amethyst".toList,
   "andalusite".toList, "apatite".toList, "aquamarine".toList, "beryl".toList,
   "calcite".toList, "carnelian".toList, "chrysoberyl".toList, "chrysoprase".toList,
   "citrine".toList, "demantoid".toList, "diamond".toList, "diopside".toList,
   "emerald".toList, "epidote".toList, "fluorite".toList, "garnet".toList,
   "grossular".toList, "heliodor".toList, "hessonite".toList, "hiddenite".toList,
   "iolite".toList, "jadeite".toList, "kunzite".toList, "kyanite".toList,
   "labradorite".toList, "lapis-lazuli".toList, "malachite".toList, "moonstone".toList,
   "morganite".toList, "nephrite".toList, "opal".toList, "orthoclase".toList,
   "peridot".toList, "pyrope".toList, "quartz".toList, "rhodolite".toList,
   "ruby".toList, "sapphire".toList, "scapolite".toList, "sphene".toList,
   "spessartine".toList, "spinel".toList, "spodumene".toList, "sunstone".toList,
   "tanzanite".toList, "topaz".toList, "tourmaline".toList, "tsavorite".toList,
   "turquoise".toList, "zircon".toList, "zoisite".toList,
   "rose-quartz".toList, "smoky-quartz".toList, "star-ruby".toList, "star-sapphire".toList,
   "cats-eye-chrysoberyl".toList, "padparadscha".toList, "paraiba-tourmaline".toList,
   "watermelon-tourmaline".toList, "rubellite".toList, "indicolite".toList,
   "pyrite".toList, "magnetite".toList, "galena".toList,
   "corundum".toList, "hematite".toList, "cinnabar".toList,
   "rutile".toList, "cassiterite".toList, "vesuvianite".toList,
   "olivine".toList, "barite".toList, "celestine".toList,
   "gypsum".toList, "realgar".toList, "orpiment".toList]

/-- Embedding of generate_placeholder_assets (lines 120-169): for each
name of the static list, write name.svg holding the placeholder SVG. -/
def generate_placeholder_assets : List (List Char × List Char) :=
  minerals.map (fun name => (name ++ ".svg".toList, generate_placeholder_svg name))

/-- Observable outcome of one process run of generate-crystal-assets.py. -/
structure Script2Outcome where
  exitCode : Nat
  placeholderFiles : List (List Char × List Char)
  realFiles : List (List Char)
deriving DecidableEq

/-- Embedding of the __main__ block of generate-crystal-assets.py (lines
172-194): with --placeholder run the placeholder path; otherwise call
generate_assets, falling back to the placeholder path only when an
ImportError escapes generate_assets, and propagating a SystemExit (the
except ImportError clause at line 191 does not catch SystemExit). -/
def script2_main (env : Env2) (importsOk placeholderFlag : Bool) : Script2Outcome :=
  if placeholderFlag then
    { exitCode := 0, placeholderFiles := generate_placeholder_assets, realFiles := [] }
  else
    match generate_assets2 env importsOk with
    | .ok r => { exitCode := 0, placeholderFiles := [], realFiles := r.files }
    | .importError =>
      { exitCode := 0, placeholderFiles := generate_placeholder_assets, realFiles := [] }
    | .systemExit c => { exitCode := c, placeholderFiles := [], realFiles := [] }

/-- Concrete preset name for witnesses. -/
def nameW : List Char := "Pyrite".toList

/-- Concrete cdl string for witnesses. -/
def cdlW : List Char := "cubic".toList

/-- Concrete preset record for witnesses. -/
def presetW : Preset := { cdl := some cdlW }

/-- Concrete environment for witnesses: one preset, geometry always
builds, every exporter succeeds except the glTF one. -/
def envW : Env Nat :=
  { listPresets := [nameW]
    getPreset := fun n => if n = nameW then some presetW else none
    buildGeometry := fun _ => some 0
    exportOk := fun fmt _ _ => decide (fmt ≠ Fmt.gltf) }

/-- Concrete environment for witnesses in which every exporter
succeeds. -/
def envAllOk : Env Nat :=
  { listPresets := [nameW]
    getPreset := fun n => if n = nameW then some presetW else none
    buildGeometry := fun _ => some 0
    exportOk := fun _ _ _ => true }

/-- Concrete environment for witnesses in which geometry construction
always raises. -/
def envGeomFail : Env Nat :=
  { listPresets := [nameW]
    getPreset := fun n => if n = nameW then some presetW else none
    buildGeometry := fun _ => none
    exportOk := fun _ _ _ => true }

/-- Concrete environment for witnesses in which no preset is found in
the database. -/
def envNoPreset : Env Nat :=
  { listPresets := [nameW]
    getPreset := fun _ => none
    buildGeometry := fun _ => some 0
    exportOk := fun _ _ _ => true }

theorem toLower_ofNat_add32 (n : Nat) (h65 : 65 ≤ n) (h90 : n ≤ 90) :
    Char.toLower (Char.ofNat (n + 32)) = Char.ofNat (n + 32) := by
  interval_cases n <;> decide

theorem toLower_toLower (c : Char) : Char.toLower (Char.toLower c) = Char.toLower c := by
  by_cases h : 65 ≤ c.toNat ∧ c.toNat ≤ 90
  · have h1 : Char.toLower c = Char.ofNat (c.toNat + 32) := by
      rw [Char.toLower, if_pos ⟨h.1, h.2⟩]
    rw [h1]
    exact toLower_ofNat_add32 c.toNat h.1 h.2
  · have h1 : Char.toLower c = c := by
      rw [Char.toLower, if_neg h]
    rw [h1, h1]

theorem mem_pyLower {c : Char} {s : List Char} (h : c ∈ pyLower s) :
    ∃ a, a ∈ s ∧ Char.toLower a = c := by
  rw [pyLower, List.mem_map] at h
  exact h

theorem mem_pyReplaceChar {old new c : Char} {s : List Char} (h : c ∈ pyReplaceChar old new s) :
    c = new ∨ (c ∈ s ∧ c ≠ old) := by
  rw [pyReplaceChar, List.mem_map] at h
  obtain ⟨a, ha, hfa⟩ := h
  by_cases hao : a = old
  · left
    rw [if_pos hao] at hfa
    exact hfa.symm
  · right
    rw [if_neg hao] at hfa
    subst hfa
    exact ⟨ha, hao⟩

theorem mem_pyRemoveChar {old c : Char} {s : List Char} (h : c ∈ pyRemoveChar old s) :
    c ∈ s ∧ c ≠ old := by
  rw [pyRemoveChar, List.mem_filter] at h
  simpa using h

theorem pyLower_eq_self {s : List Char} (h : ∀ c ∈ s, Char.toLower c = c) :
    pyLower s = s := by
  rw [pyLower, List.map_congr_left h]
  exact List.map_id' s

theorem pyReplaceChar_eq_self {old new : Char} {s : List Char} (h : ∀ c ∈ s, c ≠ old) :
    pyReplaceChar old new s = s := by
  rw [pyReplaceChar]
  have h2 : ∀ c ∈ s, (fun x => if x = old then new else x) c = id c := by
    intro c hc
    simp only [id]
    rw [if_neg (h c hc)]
  rw [List.map_congr_left h2, List.map_id]

theorem pyRemoveChar_eq_self {old : Char} {s : List Char} (h : ∀ c ∈ s, c ≠ old) :
    pyRemoveChar old s = s := by
  rw [pyRemoveChar]
  exact List.filter_eq_self.mpr (fun a ha => by simpa using h a ha)

theorem normalize_filename_chars {s : List Char} :
    ∀ c ∈ normalize_filename s,
      Char.toLower c = c ∧ c ≠ ' ' ∧ c ≠ apos ∧ c ≠ '(' ∧ c ≠ ')' := by
  intro c hc
  rw [normalize_filename] at hc
  obtain ⟨hc, hcp⟩ := mem_pyRemoveChar hc
  obtain ⟨hc, hco⟩ := mem_pyRemoveChar hc
  obtain ⟨hc, hca⟩ := mem_pyRemoveChar hc
  rcases mem_pyReplaceChar hc with hyph | ⟨hc, hsp⟩
  · subst hyph
    exact ⟨by decide, by decide, hca, hco, hcp⟩
  · obtain ⟨a, _, rfl⟩ := mem_pyLower hc
    exact ⟨toLower_toLower a, hsp, hca, hco, hcp⟩

theorem setStat_same (stats : Fmt → FmtStats) (fmt : Fmt) (v : FmtStats) :
    setStat stats fmt v fmt = v := by
  simp [setStat]

theorem setStat_other {f fmt : Fmt} (stats : Fmt → FmtStats) (v : FmtStats) (h : f ≠ fmt) :
    setStat stats fmt v f = stats f := by
  simp [setStat, h]

theorem exportOne_stats_other {G : Type} (env : Env G) (geom : G) (name fname : List Char)
    (st : RunState) {f fmt : Fmt} (h : f ≠ fmt) :
    (exportOne env geom name fname st fmt).stats f = st.stats f := by
  rw [exportOne]
  split <;> simp [setStat, h]

theorem exportOne_files_mono {G : Type} (env : Env G) (geom : G) (name fname : List Char)
    (st : RunState) (fmt : Fmt) {x : Fmt × List Char} (hx : x ∈ st.files) :
    x ∈ (exportOne env geom name fname st fmt).files := by
  rw [exportOne]
  split <;> simp [hx]

theorem foldl_exportOne_stats_not_mem {G : Type} (env : Env G) (geom : G)
    (name fname : List Char) {fmt : Fmt} (fs : List Fmt) :
    ∀ st : RunState, fmt ∉ fs →
      ((fs.foldl (exportOne env geom name fname) st).stats fmt) = st.stats fmt := by
  induction fs with
  | nil =>
    intro st _
    rfl
  | cons f rest ih =>
    intro st h
    have h1 : fmt ∉ rest := fun hr => h (List.mem_cons_of_mem _ hr)
    have h2 : fmt ≠ f := by
      intro he
      exact h (by rw [he]; exact List.mem_cons_self _ _)
    rw [List.foldl_cons, ih _ h1]
    exact exportOne_stats_other env geom name fname st h2

theorem foldl_exportOne_files_mono {G : Type} (env : Env G) (geom : G)
    (name fname : List Char) (fs : List Fmt) :
    ∀ (st : RunState) {x : Fmt × List Char}, x ∈ st.files →
      x ∈ (fs.foldl (exportOne env geom name fname) st).files := by
  induction fs with
  | nil =>
    intro st x hx
    exact hx
  | cons f rest ih =>
    intro st x hx
    rw [List.foldl_cons]
    exact ih _ (exportOne_files_mono env geom name fname st f hx)

theorem foldl_exportOne_spec {G : Type} (env : Env G) (geom : G) (name fname : List Char)
    (fs : List Fmt) :
    ∀ (st : RunState) (fmt : Fmt), fs.Nodup → fmt ∈ fs →
      (env.exportOk fmt geom name = true →
         ((fs.foldl (exportOne env geom name fname) st).stats fmt).success
             = (st.stats fmt).success + 1 ∧
         ((fs.foldl (exportOne env geom name fname) st).stats fmt).failed
             = (st.stats fmt).failed ∧
         (fmt, fname ++ fmtExt fmt) ∈ (fs.foldl (exportOne env geom name fname) st).files) ∧
      (env.exportOk fmt geom name = false →
         ((fs.foldl (exportOne env geom name fname) st).stats fmt).success
             = (st.stats fmt).success ∧
         ((fs.foldl (exportOne env geom name fname) st).stats fmt).failed
             = (st.stats fmt).failed ++ [name]) := by
  induction fs with
  | nil =>
    intro st fmt _ hmem
    cases hmem
  | cons f rest ih =>
    intro st fmt hnd hmem
    rw [List.foldl_cons]
    rcases List.mem_cons.mp hmem with heq | hmem'
    · subst heq
      have hrest : fmt ∉ rest := (List.nodup_cons.mp hnd).1
      constructor
      · intro hok
        refine ⟨?_, ?_, ?_⟩
        · rw [foldl_exportOne_stats_not_mem env geom name fname rest _ hrest]
          simp [exportOne, hok, setStat_same]
        · rw [foldl_exportOne_stats_not_mem env geom name fname rest _ hrest]
          simp [exportOne, hok, setStat_same]
        · apply foldl_exportOne_files_mono
          simp [exportOne, hok]
      · intro hfail
        rw [foldl_exportOne_stats_not_mem env geom name fname rest _ hrest]
        constructor
        · simp [exportOne, hfail, setStat_same]
        · simp [exportOne, hfail, setStat_same]
    · have hne : fmt ≠ f := by
        intro he
        exact (List.nodup_cons.mp hnd).1 (he ▸ hmem')
      have hkeep : (exportOne env geom name fname st f).stats fmt = st.stats fmt :=
        exportOne_stats_other env geom name fname st hne
      have hrec := ih (exportOne env geom name fname st f) fmt (List.nodup_cons.mp hnd).2 hmem'
      rw [hkeep] at hrec
      exact hrec

theorem markFailed_not_mem (name : List Char) (fs : List Fmt) :
    ∀ (stats : Fmt → FmtStats) {fmt : Fmt}, fmt ∉ fs →
      markFailed stats name fs fmt = stats fmt := by
  induction fs with
  | nil =>
    intro stats fmt _
    rfl
  | cons f rest ih =>
    intro stats fmt h
    have h1 : fmt ∉ rest := fun hr => h (List.mem_cons_of_mem _ hr)
    have h2 : fmt ≠ f := by
      intro he
      exact h (by rw [he]; exact List.mem_cons_self _ _)
    show markFailed
      (setStat stats f { success := (stats f).success, failed := (stats f).failed ++ [name] })
      name rest fmt = stats fmt
    rw [ih _ h1]
    exact setStat_other _ _ h2

theorem markFailed_mem (name : List Char) (fs : List Fmt) :
    ∀ (stats : Fmt → FmtStats) {fmt : Fmt}, fs.Nodup → fmt ∈ fs →
      (markFailed stats name fs fmt).success = (stats fmt).success ∧
      (markFailed stats name fs fmt).failed = (stats fmt).failed ++ [name] := by
  induction fs with
  | nil =>
    intro stats fmt _ hmem
    cases hmem
  | cons f rest ih =>
    intro stats fmt hnd hmem
    rcases List.mem_cons.mp hmem with heq | hmem'
    · subst heq
      have hrest : fmt ∉ rest := (List.nodup_cons.mp hnd).1
      show (markFailed
          (setStat stats fmt { success := (stats fmt).success, failed := (stats fmt).failed ++ [name] })
          name rest fmt).success = (stats fmt).success ∧
        (markFailed
          (setStat stats fmt { success := (stats fmt).success, failed := (stats fmt).failed ++ [name] })
          name rest fmt).failed = (stats fmt).failed ++ [name]
      rw [markFailed_not_mem name rest _ hrest, setStat_same]
      exact ⟨rfl, rfl⟩
    · have hne : fmt ≠ f := by
        intro he
        exact (List.nodup_cons.mp hnd).1 (he ▸ hmem')
      have hrec := ih
        (setStat stats f { success := (stats f).success, failed := (stats f).failed ++ [name] })
        (List.nodup_cons.mp hnd).2 hmem'
      rw [setStat_other _ _ hne] at hrec
      exact hrec

theorem processPreset_geom_ok {G : Type} (env : Env G) (formats : List Fmt) (st : RunState)
    (name : List Char) (preset : Preset) (cdl : List Char) (geom : G)
    (hp : env.getPreset name = some preset) (hc : preset.cdl = some cdl)
    (hne : cdl.isEmpty = false) (hg : env.buildGeometry cdl = some geom) :
    processPreset env formats st name =
      formats.foldl (exportOne env geom name (normalize_filename name)) st := by
  simp [processPreset, hp, hc, hne, hg]

theorem processPreset_geom_fail {G : Type} (env : Env G) (formats : List Fmt) (st : RunState)
    (name : List Char) (preset : Preset) (cdl : List Char)
    (hp : env.getPreset name = some preset) (hc : preset.cdl = some cdl)
    (hne : cdl.isEmpty = false) (hg : env.buildGeometry cdl = none) :
    processPreset env formats st name = { st with stats := markFailed st.stats name formats } := by
  simp [processPreset, hp, hc, hne, hg]

theorem processPreset_skip {G : Type} (env : Env G) (formats : List Fmt) (st : RunState)
    (name : List Char)
    (h : env.getPreset name = none ∨
         ∃ p, env.getPreset name = some p ∧ (p.cdl = none ∨ p.cdl = some [])) :
    processPreset env formats st name = st := by
  rcases h with h | ⟨p, hp, hc⟩
  · simp [processPreset, h]
  · rcases hc with hc | hc <;> simp [processPreset, hp, hc]

theorem listStartsWith_iff (needle : List Char) :
    ∀ hay : List Char, listStartsWith needle hay = true ↔ ∃ r, needle ++ r = hay := by
  induction needle with
  | nil =>
    intro hay
    simp [listStartsWith]
  | cons a as ih =>
    intro hay
    cases hay with
    | nil =>
      simp [listStartsWith]
    | cons b bs =>
      rw [listStartsWith, Bool.and_eq_true, beq_iff_eq, ih bs]
      constructor
      · rintro ⟨rfl, r, rfl⟩
        exact ⟨r, rfl⟩
      · rintro ⟨r, h⟩
        simp only [List.cons_append, List.cons.injEq] at h
        exact ⟨h.1, r, h.2⟩

theorem substrIn_iff (needle : List Char) :
    ∀ hay : List Char, substrIn needle hay = true ↔ ∃ l r, l ++ needle ++ r = hay := by
  intro hay
  induction hay with
  | nil =>
    rw [substrIn]
    constructor
    · intro h
      refine ⟨[], [], ?_⟩
      have he : needle = [] := List.isEmpty_iff.mp h
      simp [he]
    · rintro ⟨l, r, h⟩
      simp only [List.append_eq_nil] at h
      simp [List.isEmpty_iff, h.1.2]
  | cons c cs ih =>
    rw [substrIn, Bool.or_eq_true, listStartsWith_iff, ih]
    constructor
    · rintro (⟨r, hr⟩ | ⟨l, r, hlr⟩)
      · exact ⟨[], r, by simp [hr]⟩
      · refine ⟨c :: l, r, ?_⟩
        simp only [List.cons_append]
        rw [hlr]
    · rintro ⟨l, r, hlr⟩
      cases l with
      | nil =>
        left
        exact ⟨r, by simpa using hlr⟩
      | cons x xs =>
        right
        simp only [List.cons_append, List.cons.injEq] at hlr
        exact ⟨xs, r, hlr.2⟩

/-- Claim C3 counterexample: the stem computed by
generate-crystal-assets.py for the name Lapis Lazuli (Var.) keeps the
parentheses, so it is not the claimed lapis-lazuli-var. stem. -/
theorem C3_counterexample_crystal_stem :
    crystal_filename ("Lapis Lazuli (Var.)".toList) = "lapis-lazuli-(var.)".toList ∧
    crystal_filename ("Lapis Lazuli (Var.)".toList) ≠ "lapis-lazuli-var.".toList := by
  decide

/-- Claim C3 (amended): the stem used by generate-all-assets.py equals
the display name lowercased with spaces turned to hyphens and the
characters apostrophe, open paren and close paren removed, and on
Lapis Lazuli (Var.) it yields lapis-lazuli-var.; the stem used by
generate-crystal-assets.py only lowercases, hyphenates spaces and
removes apostrophes, so on the same name it yields
lapis-lazuli-(var.). -/
theorem C3_stem_normalization (s : List Char) :
    normalize_filename s = normalizeSpec s ∧
    normalize_filename ("Lapis Lazuli (Var.)".toList) = "lapis-lazuli-var.".toList ∧
    crystal_filename ("Lapis Lazuli (Var.)".toList) = "lapis-lazuli-(var.)".toList := by
  refine ⟨?_, by decide, by decide⟩
  simp only [normalize_filename, normalizeSpec, pyRemoveChar, pyReplaceChar, pyLower,
    List.filter_filter]
  exact List.filter_congr (fun a _ => by
    by_cases h1 : a = apos <;> by_cases h2 : a = '(' <;> by_cases h3 : a = ')' <;>
      simp [h1, h2, h3])

/-- Claim C7: the filename normalizer of generate-all-assets.py is
idempotent: normalizing an already-normalized name returns it
unchanged. -/
theorem C7_normalize_idempotent (s : List Char) :
    normalize_filename (normalize_filename s) = normalize_filename s := by
  have hch := normalize_filename_chars (s := s)
  have h1 : pyLower (normalize_filename s) = normalize_filename s :=
    pyLower_eq_self (fun c hc => (hch c hc).1)
  have h2 : pyReplaceChar ' ' '-' (normalize_filename s) = normalize_filename s :=
    pyReplaceChar_eq_self (fun c hc => (hch c hc).2.1)
  have h3 : pyRemoveChar apos (normalize_filename s) = normalize_filename s :=
    pyRemoveChar_eq_self (fun c hc => (hch c hc).2.2.1)
  have h4 : pyRemoveChar '(' (normalize_filename s) = normalize_filename s :=
    pyRemoveChar_eq_self (fun c hc => (hch c hc).2.2.2.1)
  have h5 : pyRemoveChar ')' (normalize_filename s) = normalize_filename s :=
    pyRemoveChar_eq_self (fun c hc => (hch c hc).2.2.2.2)
  calc normalize_filename (normalize_filename s)
      = pyRemoveChar ')' (pyRemoveChar '(' (pyRemoveChar apos
          (pyReplaceChar ' ' '-' (pyLower (normalize_filename s))))) := rfl
    _ = normalize_filename s := by rw [h1, h2, h3, h4, h5]

/-- Claim C8: with a filter, the processed presets are exactly those
database names whose lowercased form contains the lowercased filter as
a substring, kept in database order; with no filter, every preset is
processed. -/
theorem C8_preset_selection (presets : List (List Char)) (f p : List Char) :
    (p ∈ selectPresets presets (some f) ↔
       p ∈ presets ∧ ∃ l r, l ++ pyLower f ++ r = pyLower p) ∧
    selectPresets presets none = presets ∧
    List.Sublist (selectPresets presets (some f)) presets := by
  refine ⟨?_, rfl, ?_⟩
  · simp only [selectPresets]
    by_cases hf : f.isEmpty
    · rw [if_pos hf]
      have hfe : f = [] := List.isEmpty_iff.mp hf
      subst hfe
      constructor
      · intro hp
        refine ⟨hp, pyLower p, [], ?_⟩
        simp [pyLower]
      · exact fun h => h.1
    · rw [if_neg hf, List.mem_filter]
      constructor
      · rintro ⟨hp, hsub⟩
        exact ⟨hp, (substrIn_iff _ _).mp hsub⟩
      · rintro ⟨hp, hsub⟩
        exact ⟨hp, (substrIn_iff _ _).mpr hsub⟩
  · simp only [selectPresets]
    by_cases hf : f.isEmpty
    · rw [if_pos hf]
    · rw [if_neg hf]
      exact List.filter_sublist _

/-- Claim C9: the placeholder SVG content does not depend on the name
argument, so every file written by the placeholder path holds the same
fixed octahedron SVG string. -/
theorem C9_placeholder_constant :
    (∀ a b : List Char, generate_placeholder_svg a = generate_placeholder_svg b) ∧
    (∀ fc : List Char × List Char, fc ∈ generate_placeholder_assets →
       fc.2 = generate_placeholder_svg []) := by
  constructor
  · intro a b
    rfl
  · intro fc hfc
    rw [generate_placeholder_assets, List.mem_map] at hfc
    obtain ⟨n, _, rfl⟩ := hfc
    rfl

/-- Witness for claim C9 at one concrete placeholder file. -/
theorem C9_placeholder_constant_witness :
    (("ruby".toList ++ ".svg".toList, generate_placeholder_svg ("ruby".toList)) :
        List Char × List Char).2 = generate_placeholder_svg [] :=
  C9_placeholder_constant.2 _
    (List.mem_map.mpr ⟨"ruby".toList, by decide, rfl⟩)

/-- Claim C1: for a preset whose geometry was built successfully, each
requested format's exporter runs independently: a failing exporter adds
the preset name to that format's failed list only and leaves its
success count alone, while a succeeding format still increments its
success count, keeps its failed list and writes its output file; the
per-preset loop is not aborted. -/
theorem C1_format_failure_isolated {G : Type} (env : Env G) (formats : List Fmt)
    (name : List Char) (st : RunState) (preset : Preset) (cdl : List Char) (geom : G)
    (hp : env.getPreset name = some preset) (hc : preset.cdl = some cdl)
    (hne : cdl.isEmpty = false) (hg : env.buildGeometry cdl = some geom)
    (hnd : formats.Nodup) (fmt : Fmt) (hmem : fmt ∈ formats) :
    (env.exportOk fmt geom name = false →
       ((processPreset env formats st name).stats fmt).failed
           = (st.stats fmt).failed ++ [name] ∧
       ((processPreset env formats st name).stats fmt).success
           = (st.stats fmt).success) ∧
    (env.exportOk fmt geom name = true →
       ((processPreset env formats st name).stats fmt).success
           = (st.stats fmt).success + 1 ∧
       ((processPreset env formats st name).stats fmt).failed
           = (st.stats fmt).failed ∧
       (fmt, normalize_filename name ++ fmtExt fmt)
           ∈ (processPreset env formats st name).files) := by
  rw [processPreset_geom_ok env formats st name preset cdl geom hp hc hne hg]
  have h := foldl_exportOne_spec env geom name (normalize_filename name) formats st fmt hnd hmem
  exact ⟨fun hf => ⟨(h.2 hf).2, (h.2 hf).1⟩, h.1⟩

/-- Witness for claim C1: with one preset, geometry succeeding, svg
succeeding and the glTF exporter failing, the failure is recorded only
in the glTF failed list. -/
theorem C1_format_failure_isolated_witness :
    (envW.exportOk Fmt.gltf 0 nameW = false →
       ((processPreset envW [Fmt.svg, Fmt.gltf] initState nameW).stats Fmt.gltf).failed
           = (initState.stats Fmt.gltf).failed ++ [nameW] ∧
       ((processPreset envW [Fmt.svg, Fmt.gltf] initState nameW).stats Fmt.gltf).success
           = (initState.stats Fmt.gltf).success) ∧
    (envW.exportOk Fmt.gltf 0 nameW = true →
       ((processPreset envW [Fmt.svg, Fmt.gltf] initState nameW).stats Fmt.gltf).success
           = (initState.stats Fmt.gltf).success + 1 ∧
       ((processPreset envW [Fmt.svg, Fmt.gltf] initState nameW).stats Fmt.gltf).failed
           = (initState.stats Fmt.gltf).failed ∧
       (Fmt.gltf, normalize_filename nameW ++ fmtExt Fmt.gltf)
           ∈ (processPreset envW [Fmt.svg, Fmt.gltf] initState nameW).files) :=
  C1_format_failure_isolated envW [Fmt.svg, Fmt.gltf] nameW initState presetW cdlW 0
    (by decide) (by decide) (by decide) (by decide) (by decide) Fmt.gltf (by decide)

/-- Claim C2: when parsing or geometry construction fails for a preset
with a crystallographic description, the preset name is appended to the
failed list of every requested format, no stats of other formats move,
no output file is written for the preset, and the loop continues with
the next preset. -/
theorem C2_geometry_failure_fails_all {G : Type} (env : Env G) (formats : List Fmt)
    (name : List Char) (rest : List (List Char)) (st : RunState)
    (preset : Preset) (cdl : List Char)
    (hp : env.getPreset name = some preset) (hc : preset.cdl = some cdl)
    (hne : cdl.isEmpty = false) (hg : env.buildGeometry cdl = none)
    (hnd : formats.Nodup) :
    (processPreset env formats st name).files = st.files ∧
    (∀ fmt ∈ formats,
       ((processPreset env formats st name).stats fmt).failed
           = (st.stats fmt).failed ++ [name] ∧
       ((processPreset env formats st name).stats fmt).success
           = (st.stats fmt).success) ∧
    (∀ fmt : Fmt, fmt ∉ formats →
       (processPreset env formats st name).stats fmt = st.stats fmt) ∧
    List.foldl (processPreset env formats) st (name :: rest) =
      List.foldl (processPreset env formats) (processPreset env formats st name) rest := by
  have hps := processPreset_geom_fail env formats st name preset cdl hp hc hne hg
  refine ⟨by rw [hps], ?_, ?_, List.foldl_cons _ _⟩
  · intro fmt hmem
    rw [hps]
    have h := markFailed_mem name formats st.stats hnd hmem
    exact ⟨h.2, h.1⟩
  · intro fmt hmem
    rw [hps]
    exact markFailed_not_mem name formats st.stats hmem

/-- Witness for claim C2: with requested formats svg and stl and a
failing geometry build, both formats record the preset as failed and no
file is written. -/
theorem C2_geometry_failure_fails_all_witness :
    (processPreset envGeomFail [Fmt.svg, Fmt.stl] initState nameW).files = initState.files ∧
    (∀ fmt ∈ [Fmt.svg, Fmt.stl],
       ((processPreset envGeomFail [Fmt.svg, Fmt.stl] initState nameW).stats fmt).failed
           = (initState.stats fmt).failed ++ [nameW] ∧
       ((processPreset envGeomFail [Fmt.svg, Fmt.stl] initState nameW).stats fmt).success
           = (initState.stats fmt).success) ∧
    (∀ fmt : Fmt, fmt ∉ [Fmt.svg, Fmt.stl] →
       (processPreset envGeomFail [Fmt.svg, Fmt.stl] initState nameW).stats fmt
           = initState.stats fmt) ∧
    List.foldl (processPreset envGeomFail [Fmt.svg, Fmt.stl]) initState (nameW :: []) =
      List.foldl (processPreset envGeomFail [Fmt.svg, Fmt.stl])
        (processPreset envGeomFail [Fmt.svg, Fmt.stl] initState nameW) [] :=
  C2_geometry_failure_fails_all envGeomFail [Fmt.svg, Fmt.stl] nameW [] initState presetW cdlW
    (by decide) (by decide) (by decide) (by decide) (by decide)

/-- Claim C4: a preset that is absent from the database, or whose
crystallographic description is absent or empty, is skipped: the run
state is unchanged (no file, no success, no failure for any format) and
the loop continues with the next preset. -/
theorem C4_skip_no_cdl {G : Type} (env : Env G) (formats : List Fmt) (name : List Char)
    (rest : List (List Char)) (st : RunState)
    (h : env.getPreset name = none ∨
         ∃ p, env.getPreset name = some p ∧ (p.cdl = none ∨ p.cdl = some [])) :
    processPreset env formats st name = st ∧
    List.foldl (processPreset env formats) st (name :: rest) =
      List.foldl (processPreset env formats) st rest := by
  have hps := processPreset_skip env formats st name h
  exact ⟨hps, by rw [List.foldl_cons, hps]⟩

/-- Witness for claim C4: a preset missing from the database leaves the
run state untouched. -/
theorem C4_skip_no_cdl_witness :
    processPreset envNoPreset [Fmt.svg] initState nameW = initState ∧
    List.foldl (processPreset envNoPreset [Fmt.svg]) initState (nameW :: []) =
      List.foldl (processPreset envNoPreset [Fmt.svg]) initState [] :=
  C4_skip_no_cdl envNoPreset [Fmt.svg] nameW [] initState (Or.inl (by decide))

/-- Claim C5: the run exits non-zero exactly when an import fails or a
requested format token is invalid; an invalid token aborts before any
directory is created, any file is written or any preset is processed;
with valid tokens and working imports the exit status is zero whatever
the per-preset or per-format outcomes. -/
theorem C5_exit_status {G : Type} (env : Env G) (importsOk : Bool) (argFormats : List Char)
    (argPreset : Option (List Char)) :
    ((script1_main env importsOk argFormats argPreset).exitCode ≠ 0 ↔
       ((∃ t ∈ formatTokens argFormats, parseFmt t = none) ∨ importsOk = false)) ∧
    ((∃ t ∈ formatTokens argFormats, parseFmt t = none) →
       script1_main env importsOk argFormats argPreset =
         { exitCode := 1, dirsCreated := [], presetsProcessed := 0,
           files := [], stats := none }) ∧
    ((∀ t ∈ formatTokens argFormats, parseFmt t ≠ none) → importsOk = true →
       (script1_main env importsOk argFormats argPreset).exitCode = 0) := by
  by_cases hb : (formatTokens argFormats).any (fun t => (parseFmt t).isNone) = true
  · have hex : ∃ t ∈ formatTokens argFormats, parseFmt t = none := by
      rw [List.any_eq_true] at hb
      obtain ⟨t, ht, hno⟩ := hb
      exact ⟨t, ht, Option.isNone_iff_eq_none.mp hno⟩
    have hm : script1_main env importsOk argFormats argPreset =
        { exitCode := 1, dirsCreated := [], presetsProcessed := 0,
          files := [], stats := none } := by
      simp [script1_main, hb]
    refine ⟨?_, fun _ => hm, fun hall _ => ?_⟩
    · rw [hm]
      exact ⟨fun _ => Or.inl hex, fun _ => by decide⟩
    · obtain ⟨t, ht, hno⟩ := hex
      exact absurd hno (hall t ht)
  · have hnoex : ¬ ∃ t ∈ formatTokens argFormats, parseFmt t = none := by
      intro hex
      obtain ⟨t, ht, hno⟩ := hex
      exact hb (List.any_eq_true.mpr ⟨t, ht, by simp [hno]⟩)
    cases importsOk with
    | false =>
      have hm : script1_main env false argFormats argPreset =
          { exitCode := 1, dirsCreated := [], presetsProcessed := 0,
            files := [], stats := none } := by
        simp [script1_main, hb, generate_assets]
      refine ⟨?_, fun hex => absurd hex hnoex, fun _ hcon => absurd hcon (by decide)⟩
      rw [hm]
      exact ⟨fun _ => Or.inr rfl, fun _ => by decide⟩
    | true =>
      have hm : (script1_main env true argFormats argPreset).exitCode = 0 := by
        simp [script1_main, hb, generate_assets]
      refine ⟨?_, fun hex => absurd hex hnoex, fun _ _ => hm⟩
      constructor
      · intro h0
        exact absurd hm h0
      · rintro (hex | hfalse)
        · exact absurd hex hnoex
        · exact absurd hfalse (by decide)

/-- Witness for claim C5: requesting the format png exits non-zero. -/
theorem C5_exit_status_witness :
    (script1_main envAllOk true ("png".toList) none).exitCode ≠ 0 :=
  (C5_exit_status envAllOk true ("png".toList) none).1.mpr
    (Or.inl ⟨"png".toList, by decide, by decide⟩)

/-- Claim C6 evidence: running generate-crystal-assets.py without
--placeholder while the packages cannot be imported makes the process
exit with status 1 and write nothing: generate_assets turns the
ImportError into sys.exit(1), the SystemExit passes through the except
ImportError clause of the __main__ block, and the placeholder path
(which would write the non-empty placeholder file list) is never
reached. -/
theorem C6_import_failure_exits_one (env : Env2) :
    script2_main env false false =
      { exitCode := 1, placeholderFiles := [], realFiles := [] } ∧
    generate_placeholder_assets ≠ [] := by
  constructor
  · rfl
  · intro h
    simpa [generate_placeholder_assets, minerals] using congrArg List.length h

/-- Claim C10: a successful glTF export writes the file with the .glb
extension, while every other format's file extension equals the format
name. -/
theorem C10_gltf_glb_extension {G : Type} (env : Env G) (geom : G) (name fname : List Char)
    (st : RunState) (h : env.exportOk Fmt.gltf geom name = true) :
    (exportOne env geom name fname st Fmt.gltf).files =
      st.files ++ [(Fmt.gltf, fname ++ ".glb".toList)] ∧
    fmtExt Fmt.gltf ≠ '.' :: fmtName Fmt.gltf ∧
    (∀ fmt : Fmt, fmt ≠ Fmt.gltf → fmtExt fmt = '.' :: fmtName fmt) := by
  refine ⟨?_, by decide, ?_⟩
  · simp [exportOne, h, fmtExt]
  · intro fmt hto
    cases fmt
    · decide
    · decide
    · exact absurd rfl hto
    · decide

/-- Witness for claim C10: with a succeeding glTF exporter the written
file is the stem plus .glb. -/
theorem C10_gltf_glb_extension_witness :
    (exportOne envAllOk 0 nameW (normalize_filename nameW) initState Fmt.gltf).files =
      initState.files ++ [(Fmt.gltf, normalize_filename nameW ++ ".glb".toList)] ∧
    fmtExt Fmt.gltf ≠ '.' :: fmtName Fmt.gltf ∧
    (∀ fmt : Fmt, fmt ≠ Fmt.gltf → fmtExt fmt = '.' :: fmtName fmt) :=
  C10_gltf_glb_extension envAllOk 0 nameW (normalize_filename nameW) initState (by decide)

end Gemmology
